import Mathlib

/-!
Shallow embedding of the `clipper` crate (CLIP embedding pipeline).

Sources embedded here:
* `src/src/lib.rs` — `ClipEmbedder` (`new`, `get_image_embedding`,
  `get_text_embedding`), `get_device`, `load_image`, `get_tokenizer`;
* `src/src/main.rs` — `cosine_similarity`.

External collaborators (the `candle` tensor/model backend, the `image`
decoding crate, the `tokenizers` crate, the `hf_hub` resolver) are passed in
as explicit function parameters, with their documented contracts appearing as
hypotheses of the theorems.  `f32` values are modelled as rationals (for the
deterministic pixel pipeline) and reals (where a square root occurs);
fallible Rust calls (`Result` + `?`) become `Except String`.
-/

namespace Clipper

/-- Compute devices, mirroring `candle_core::Device` as used by `get_device`
(`Device::Cpu`, `Device::new_cuda(0)`, `Device::new_metal(0)`). -/
inductive Device where
  | Cpu : Device
  | Cuda (ordinal : Nat) : Device
  | Metal (ordinal : Nat) : Device
deriving DecidableEq, Repr

/-- Resize filters, mirroring `image::imageops::FilterType`.  `load_image`
passes `FilterType::Triangle`. -/
inductive FilterType where
  | Nearest : FilterType
  | Triangle : FilterType
  | CatmullRom : FilterType
  | Gaussian : FilterType
  | Lanczos3 : FilterType
deriving DecidableEq, Repr

/-- A `candle` tensor, modelled as a shape together with an entry function on
multi-indices (entries are rationals standing for the `f32`/`u8` payload). -/
structure Tensor where
  shape : List Nat
  entry : List Nat → ℚ

/-- Model of `Tensor::from_vec(raw, (h, w, c), ...)`: builds a rank-3 tensor from a flat
row-major byte vector; candle fails when the length does not match the
requested shape. -/
def fromVec (raw : List Nat) (h w c : Nat) : Except String Tensor :=
  if raw.length = h * w * c then
    .ok ⟨[h, w, c], fun idx =>
      match idx with
      | [i, j, k] => ((raw.getD ((i * w + j) * c + k) 0 : Nat) : ℚ)
      | _ => 0⟩
  else .error "unexpected number of elements"

/-- Model of `.permute((2, 0, 1))` on a rank-3 tensor: output axis 0 is input axis 2,
so an (h, w, c) tensor becomes (c, h, w). -/
def permute201 (t : Tensor) : Tensor :=
  { shape := match t.shape with
      | [a, b, c] => [c, a, b]
      | s => s
    entry := fun idx =>
      match idx with
      | [i, j, k] => t.entry [j, k, i]
      | _ => 0 }

/-- Model of `.affine(mul, add)`: elementwise `x * mul + add`.  (`.to_dtype(DType::F32)`
is the identity on the rational model.) -/
def affine (t : Tensor) (mul add : ℚ) : Tensor :=
  { shape := t.shape, entry := fun idx => t.entry idx * mul + add }

/-- Model of `.unsqueeze(0)`: prepend a batch dimension of one. -/
def unsqueeze0 (t : Tensor) : Tensor :=
  { shape := 1 :: t.shape
    entry := fun idx =>
      match idx with
      | _ :: rest => t.entry rest
      | [] => 0 }

/-- Model of `.squeeze(0)`: drop the leading dimension when it is one, otherwise (as in
candle, following PyTorch) return the tensor unchanged. -/
def squeeze0 (t : Tensor) : Tensor :=
  match t.shape with
  | 1 :: rest => ⟨rest, fun idx => t.entry (0 :: idx)⟩
  | _ => t

/-- Model of `.to_vec1::<f32>()`: flatten a rank-1 tensor to a vector; candle fails on
any other rank. -/
def toVec1 (t : Tensor) : Except String (List ℚ) :=
  match t.shape with
  | [n] => .ok ((List.range n).map fun i => t.entry [i])
  | _ => .error "not a rank-1 tensor"

/-- The operations `load_image` needs from the external `image` crate, over an
abstract decoded-image type `Img` (`image::DynamicImage`). -/
structure ImageOps (Img : Type) where
  /-- Model of `image::ImageReader::open(path)?.decode()?`. -/
  openDecode : String → Except String Img
  /-- Decoding an encoded in-memory byte buffer (`image::load_from_memory`). -/
  decodeBytes : List Nat → Except String Img
  /-- Model of `DynamicImage::resize_to_fill(w, h, filter)`. -/
  resizeToFill : Img → Nat → Nat → FilterType → Img
  /-- Model of `.to_rgb8().into_raw()`: the flat HWC row-major byte buffer. -/
  toRgb8Raw : Img → List Nat

/-- The part of `load_image` after decoding: resize-to-fill to the target
square with the Triangle filter, take the raw RGB8 HWC bytes, build the
(h, w, 3) tensor, permute to (3, h, w), convert to f32 and apply
`.affine(2/255, -1)`.  (`load_image` in `src/src/lib.rs` lines 114-126.) -/
def normalizeDecoded {Img : Type} (ops : ImageOps Img) (img : Img)
    (image_size : Nat) : Except String Tensor :=
  let resized := ops.resizeToFill img image_size image_size FilterType.Triangle
  let raw := ops.toRgb8Raw resized
  (fromVec raw image_size image_size 3).map fun t =>
    affine (permute201 t) (2 / 255) (-1)

/-- Model of `load_image(path, image_size)` from `src/src/lib.rs`: open and decode the
file, then run the normalization pipeline above. -/
def load_image {Img : Type} (ops : ImageOps Img) (path : String)
    (image_size : Nat) : Except String Tensor :=
  match ops.openDecode path with
  | .error err => .error err
  | .ok img => normalizeDecoded ops img image_size

/-- Model of `candle_transformers::models::clip::ClipModel`, given by its two
projection heads consumed through the facade (batched tensor in, batched
feature tensor out; token batches are passed as lists of id rows, mirroring
`Tensor::new(vec![tokens])`). -/
structure ClipModel where
  getImageFeatures : Tensor → Except String Tensor
  getTextFeatures : List (List Nat) → Except String Tensor

/-- The external `tokenizers::Tokenizer`, modelled by its `encode` operation
(`encode(text, add_special_tokens)` returning the id sequence). -/
structure Tokenizer where
  encode : String → Bool → Except String (List Nat)

/-- The fields of `clip::ClipConfig` the pipeline reads.  Modelled from the
upstream `candle_transformers` crate: `ClipConfig::vit_base_patch32()` has
image size 224 and projection (embedding) dimension 512. -/
structure ClipConfig where
  image_size : Nat
  projection_dim : Nat
deriving DecidableEq, Repr

def ClipConfig.vit_base_patch32 : ClipConfig := ⟨224, 512⟩

/-- Model of `ClipEmbedder` from `src/src/lib.rs`: the loaded model, the tokenizer, the
resolved configuration and the chosen device. -/
structure ClipEmbedder where
  model : ClipModel
  tokenizer : Tokenizer
  config : ClipConfig
  device : Device

/-- Model of `get_device(cpu)` from `src/src/lib.rs`.  The availability probes
(`cuda_is_available`, `metal_is_available`) and the fallible device
constructors (`Device::new_cuda(0)?`, `Device::new_metal(0)?`) are external,
so they are parameters.  The second component of the result records whether
the informational CPU-fallback notice was printed. -/
def get_device (cpu : Bool) (cuda_is_available metal_is_available : Bool)
    (new_cuda new_metal : Except String Device) :
    Except String (Device × Bool) :=
  if cpu then .ok (Device.Cpu, false)
  else if cuda_is_available then new_cuda.map fun d => (d, false)
  else if metal_is_available then new_metal.map fun d => (d, false)
  else .ok (Device.Cpu, true)

/-- Model of `ClipEmbedder::get_image_embedding(path)`: load and normalize the image,
add the batch dimension (`unsqueeze(0)`; `to_device` is the identity on the
value model), run the image projection head, drop the batch dimension and
flatten. -/
def ClipEmbedder.get_image_embedding {Img : Type} (e : ClipEmbedder)
    (ops : ImageOps Img) (path : String) : Except String (List ℚ) :=
  match load_image ops path e.config.image_size with
  | .error err => .error err
  | .ok img =>
    match e.model.getImageFeatures (unsqueeze0 img) with
    | .error err => .error err
    | .ok features => toVec1 (squeeze0 features)

/-- Modelled from the spec: `get_image_embedding_from_dynamic` is declared by
its callers (`src/src/main.rs`, `src/examples/*.rs`) but its body is absent
from `src/src/lib.rs`.  Per spec section 4.2, an already-decoded image skips
decoding and "continues identically": the post-decode normalization pipeline
followed by the same feature extraction as the path form. -/
def ClipEmbedder.get_image_embedding_from_dynamic {Img : Type}
    (e : ClipEmbedder) (ops : ImageOps Img) (img : Img) :
    Except String (List ℚ) :=
  match normalizeDecoded ops img e.config.image_size with
  | .error err => .error err
  | .ok t =>
    match e.model.getImageFeatures (unsqueeze0 t) with
    | .error err => .error err
    | .ok features => toVec1 (squeeze0 features)

/-- Modelled from the spec: `get_image_embedding_from_bytes` is declared by
its callers but its body is absent from `src/src/lib.rs`.  Per spec section
4.2, the raw encoded byte buffer "first decodes to the same in-memory
representation" as the decoded form, then continues identically. -/
def ClipEmbedder.get_image_embedding_from_bytes {Img : Type}
    (e : ClipEmbedder) (ops : ImageOps Img) (bytes : List Nat) :
    Except String (List ℚ) :=
  match ops.decodeBytes bytes with
  | .error err => .error err
  | .ok img => e.get_image_embedding_from_dynamic ops img

/-- Model of `ClipEmbedder::get_text_embedding(text)`: `tokenizer.encode(text, true)`
(special boundary tokens enabled), surface a tokenizer failure directly
(`map_err(anyhow::Error::msg)` only converts the error type), wrap the id
sequence as the single-row batch `vec![tokens]`, run the text projection
head, drop the batch dimension and flatten. -/
def ClipEmbedder.get_text_embedding (e : ClipEmbedder) (text : String) :
    Except String (List ℚ) :=
  match e.tokenizer.encode text true with
  | .error err => .error err
  | .ok tokens =>
    match e.model.getTextFeatures [tokens] with
    | .error err => .error err
    | .ok features => toVec1 (squeeze0 features)

/-- Model of `get_tokenizer(tokenizer)` from `src/src/lib.rs`, with the hub resolver
(`hf_hub` `api.get(artifact)` for the pinned repo/revision) and
`Tokenizer::from_file` as parameters.  The second component records which hub
artifacts were requested. -/
def get_tokenizer (tokenizer : Option String)
    (hub : String → Except String String)
    (from_file : String → Except String Tokenizer) :
    Except String Tokenizer × List String :=
  match tokenizer with
  | none => ((hub "tokenizer.json").bind from_file, ["tokenizer.json"])
  | some file => (from_file file, [])

/-- Model of `ClipEmbedder::new(model_path, tokenizer_path, use_cpu)` from
`src/src/lib.rs`.  External collaborators are parameters: the hub resolver,
`Tokenizer::from_file`, the availability probes and device constructors, the
weight loader (`VarBuilder::from_mmaped_safetensors`, abstracted over its
result type `Vb`) and `ClipModel::new`.  The second component records which
hub artifacts were requested, in order; a request is recorded only when the
corresponding call is actually reached. -/
def ClipEmbedder.new {Vb : Type} (model_path tokenizer_path : Option String)
    (use_cpu : Bool) (hub : String → Except String String)
    (from_file : String → Except String Tokenizer)
    (cuda_is_available metal_is_available : Bool)
    (new_cuda new_metal : Except String Device)
    (load_weights : String → Except String Vb)
    (mk_model : Vb → Except String ClipModel) :
    Except String ClipEmbedder × List String :=
  match get_device use_cpu cuda_is_available metal_is_available
      new_cuda new_metal with
  | .error e => (.error e, [])
  | .ok (device, _) =>
    let resolved : Except String String × List String :=
      match model_path with
      | none => (hub "model.safetensors", ["model.safetensors"])
      | some model => (.ok model, [])
    match resolved.1 with
    | .error e => (.error e, resolved.2)
    | .ok model_file =>
      let tk := get_tokenizer tokenizer_path hub from_file
      match tk.1 with
      | .error e => (.error e, resolved.2 ++ tk.2)
      | .ok tokenizer =>
        match (load_weights model_file).bind mk_model with
        | .error e => (.error e, resolved.2 ++ tk.2)
        | .ok model =>
          (.ok { model := model, tokenizer := tokenizer,
                 config := ClipConfig.vit_base_patch32, device := device },
           resolved.2 ++ tk.2)

/-- Dot product of two f32 slices as in `cosine_similarity`
(`a.iter().zip(b.iter()).map(|(x, y)| x * y).sum()`). -/
def dotProduct (a b : List ℚ) : ℚ :=
  ((a.zip b).map fun p => p.1 * p.2).sum

/-- Sum of squares (`a.iter().map(|x| x * x).sum::<f32>()`), the radicand of
the norm in `cosine_similarity`. -/
def sumSq (a : List ℚ) : ℚ :=
  (a.map fun x => x * x).sum

/-- The Euclidean norm computed by `cosine_similarity` (`.sqrt()`), as a
real number. -/
noncomputable def norm (a : List ℚ) : ℝ :=
  Real.sqrt ((sumSq a : ℚ) : ℝ)

/-- Model of `cosine_similarity(a, b)` from `src/src/main.rs`: zero when either norm is
zero, otherwise `dot / (norm_a * norm_b)`. -/
noncomputable def cosine_similarity (a b : List ℚ) : ℝ :=
  if norm a = 0 ∨ norm b = 0 then 0
  else ((dotProduct a b : ℚ) : ℝ) / (norm a * norm b)

/-- L1 difference of two embeddings, as computed by the consistency check in
`src/examples/multi_input_test.rs` (`zip`, `(a - b).abs()`, `sum`). -/
def l1Diff (a b : List ℚ) : ℚ :=
  ((a.zip b).map fun p => |p.1 - p.2|).sum


/-- A concrete image-operations fixture over the trivial decoded-image type:
every decode succeeds and the raster is a fixed 1 x 1 RGB pixel buffer. -/
def sampleOps : ImageOps Unit where
  openDecode := fun _ => .ok ()
  decodeBytes := fun _ => .ok ()
  resizeToFill := fun i _ _ _ => i
  toRgb8Raw := fun _ => [0, 17, 255]

/-- A concrete model fixture whose projection heads return a constant batched
feature row of width two. -/
def sampleModel : ClipModel where
  getImageFeatures := fun _ => .ok ⟨[1, 2], fun _ => 1⟩
  getTextFeatures := fun _ => .ok ⟨[1, 2], fun _ => 1⟩

/-- A tokenizer fixture returning a fixed id sequence. -/
def sampleTokenizer : Tokenizer where
  encode := fun _ _ => .ok [5, 6]

/-- A tokenizer fixture that always rejects its input. -/
def failingTokenizer : Tokenizer where
  encode := fun _ _ => .error "encoding failure"

/-- An embedder fixture with a 1-pixel image size and projection dimension
two. -/
def sampleEmbedder : ClipEmbedder where
  model := sampleModel
  tokenizer := sampleTokenizer
  config := ⟨1, 2⟩
  device := Device.Cpu

/-- The sample embedder with the rejecting tokenizer. -/
def failingTokEmbedder : ClipEmbedder :=
  { sampleEmbedder with tokenizer := failingTokenizer }

/-- A model fixture whose text head accepts exactly one specific 100-id
single-row batch and rejects anything else; it observes whether the token
ids reach the model unmodified. -/
def longIdsModel : ClipModel where
  getImageFeatures := fun _ => .error "image head unused"
  getTextFeatures := fun batch =>
    if batch = [List.replicate 100 7] then .ok ⟨[1, 1], fun _ => 42⟩
    else .error "ids were modified"

/-- An embedder fixture whose tokenizer emits 100 ids (identical input would
exceed the 77-token CLIP context) paired with the observing model above. -/
def longIdsEmbedder : ClipEmbedder where
  model := longIdsModel
  tokenizer := ⟨fun _ _ => .ok (List.replicate 100 7)⟩
  config := ⟨1, 1⟩
  device := Device.Cpu


/-- A hub resolver fixture that resolves every artifact to a cache path. -/
def sampleHub : String → Except String String := fun _ => .ok "/cache/artifact"

/-- A tokenizer file loader fixture. -/
def sampleFromFile : String → Except String Tokenizer :=
  fun _ => .ok sampleTokenizer

/-- A weight loader fixture over a trivial var-builder type. -/
def sampleLoadWeights : String → Except String Unit := fun _ => .ok ()

/-- A model builder fixture. -/
def sampleMkModel : Unit → Except String ClipModel := fun _ => .ok sampleModel

theorem sumSq_nonneg (a : List ℚ) : 0 ≤ sumSq a := by
  induction a with
  | nil => simp [sumSq]
  | cons x xs ih =>
    simp only [sumSq, List.map_cons, List.sum_cons] at *
    exact add_nonneg (mul_self_nonneg x) ih

theorem norm_eq_zero_iff (a : List ℚ) : norm a = 0 ↔ sumSq a = 0 := by
  unfold norm
  rw [Real.sqrt_eq_zero (by exact_mod_cast sumSq_nonneg a)]
  exact_mod_cast Iff.rfl

theorem dotProduct_self (a : List ℚ) : dotProduct a a = sumSq a := by
  induction a with
  | nil => rfl
  | cons x xs ih =>
    simp only [dotProduct, sumSq, List.zip_cons_cons, List.map_cons,
      List.sum_cons] at *
    rw [ih]

theorem cosine_similarity_self (v : List ℚ) (h : sumSq v ≠ 0) :
    cosine_similarity v v = 1 := by
  have hnorm : norm v ≠ 0 := fun h0 => h ((norm_eq_zero_iff v).mp h0)
  unfold cosine_similarity
  rw [if_neg (by simp [hnorm])]
  have hsq : norm v * norm v = ((sumSq v : ℚ) : ℝ) :=
    Real.mul_self_sqrt (by exact_mod_cast sumSq_nonneg v)
  rw [dotProduct_self, hsq, div_self (by exact_mod_cast h)]

theorem l1Diff_self (v : List ℚ) : l1Diff v v = 0 := by
  induction v with
  | nil => rfl
  | cons x xs ih =>
    simp only [l1Diff, List.zip_cons_cons, List.map_cons, List.sum_cons] at *
    rw [ih]
    simp

theorem sumSq_replicate_zero (n : Nat) : sumSq (List.replicate n 0) = 0 := by
  induction n with
  | zero => rfl
  | succ k ih =>
    simp only [List.replicate_succ, sumSq, List.map_cons, List.sum_cons] at *
    rw [ih]
    simp

/-- C6: `cosine_similarity(a, b)` equals `dot(a, b) / (norm a * norm b)` when
both vectors have non-zero norm, and returns exactly 0 (with no error and no
division) whenever either vector has zero norm; in particular the similarity
of any vector against a zero vector is 0. -/
theorem cosine_similarity_spec (a b : List ℚ) :
    (norm a ≠ 0 ∧ norm b ≠ 0 →
      cosine_similarity a b = ((dotProduct a b : ℚ) : ℝ) / (norm a * norm b)) ∧
    (norm a = 0 ∨ norm b = 0 → cosine_similarity a b = 0) ∧
    (∀ n : Nat, cosine_similarity a (List.replicate n 0) = 0) := by
  refine ⟨fun h => ?_, fun h => ?_, fun n => ?_⟩
  · unfold cosine_similarity
    rw [if_neg (by simp [h.1, h.2])]
  · unfold cosine_similarity
    rw [if_pos h]
  · unfold cosine_similarity
    rw [if_pos (Or.inr ((norm_eq_zero_iff _).mpr (sumSq_replicate_zero n)))]

theorem cosine_similarity_spec_witness :
    cosine_similarity [3, 4] [3, 4] =
      ((dotProduct [3, 4] [3, 4] : ℚ) : ℝ) / (norm [3, 4] * norm [3, 4]) ∧
    cosine_similarity [1, 2] (List.replicate 2 0) = 0 := by
  have hn : norm [3, 4] ≠ 0 := fun h0 =>
    absurd ((norm_eq_zero_iff [3, 4]).mp h0) (by norm_num [sumSq])
  exact ⟨(cosine_similarity_spec [3, 4] [3, 4]).1 ⟨hn, hn⟩,
    (cosine_similarity_spec [1, 2] [7]).2.2 2⟩

/-- C4: device selection is an ordered-preference policy.  With `cpu = true`
the result is the CPU device with no notice and no availability check (the
probes and accelerator constructors are never consulted); with `cpu = false`
it is the CUDA device when CUDA is available, else the Metal device when
Metal is available, else the CPU device together with the informational
notice. -/
theorem get_device_policy (a b : Bool) (nc nm : Except String Device) :
    (get_device true a b nc nm = .ok (Device.Cpu, false)) ∧
    (a = true → nc = .ok (Device.Cuda 0) →
      get_device false a b nc nm = .ok (Device.Cuda 0, false)) ∧
    (a = false → b = true → nm = .ok (Device.Metal 0) →
      get_device false a b nc nm = .ok (Device.Metal 0, false)) ∧
    (a = false → b = false → get_device false a b nc nm = .ok (Device.Cpu, true)) := by
  refine ⟨rfl, fun ha hc => ?_, fun ha hb hm => ?_, fun ha hb => ?_⟩
  · subst ha hc
    rfl
  · subst ha hb hm
    rfl
  · subst ha hb
    rfl

theorem get_device_policy_witness :
    get_device true true true (.ok (Device.Cuda 0)) (.ok (Device.Metal 0))
      = .ok (Device.Cpu, false) ∧
    get_device false true false (.ok (Device.Cuda 0)) (.ok (Device.Metal 0))
      = .ok (Device.Cuda 0, false) ∧
    get_device false false true (.ok (Device.Cuda 0)) (.ok (Device.Metal 0))
      = .ok (Device.Metal 0, false) ∧
    get_device false false false (.ok (Device.Cuda 0)) (.ok (Device.Metal 0))
      = .ok (Device.Cpu, true) :=
  ⟨(get_device_policy true true _ _).1,
   (get_device_policy true false _ _).2.1 rfl rfl,
   (get_device_policy false true _ _).2.2.1 rfl rfl rfl,
   (get_device_policy false false _ _).2.2.2 rfl rfl⟩

/-- C5 counterexample: device selection does have an error path.  When the
CUDA availability probe reports true (e.g. the binary is built with the CUDA
feature) but the external `Device::new_cuda(0)` constructor fails, the `?`
in `get_device` propagates the error instead of returning a device. -/
theorem get_device_error_path_cex :
    get_device false true false
      (.error "CUDA device initialization failed") (.ok (Device.Metal 0))
      = .error "CUDA device initialization failed" := rfl

/-- C5 (amended): device selection returns a device without any error
whenever `prefer_cpu` is true or no accelerator is reported available; an
error can arise only as the propagated failure of an external accelerator
device constructor (`Device::new_cuda(0)` / `Device::new_metal(0)`). -/
theorem get_device_total_unless_ctor_fails (cpu a b : Bool)
    (nc nm : Except String Device) :
    (cpu = true → get_device cpu a b nc nm = .ok (Device.Cpu, false)) ∧
    (a = false → b = false → get_device cpu a b nc nm = .ok (Device.Cpu, cpu = false)) ∧
    (∀ e, get_device cpu a b nc nm = .error e →
      nc = .error e ∨ nm = .error e) := by
  refine ⟨fun h => ?_, fun ha hb => ?_, fun e h => ?_⟩
  · subst h
    rfl
  · subst ha hb
    cases cpu <;> rfl
  · unfold get_device at h
    cases cpu with
    | true => simp at h
    | false =>
      cases a with
      | true =>
        cases nc with
        | error m =>
          simp only [Except.map] at h
          cases h
          exact Or.inl rfl
        | ok d => simp [Except.map] at h
      | false =>
        cases b with
        | true =>
          cases nm with
          | error m =>
            simp only [Except.map] at h
            cases h
            exact Or.inr rfl
          | ok d => simp [Except.map] at h
        | false => simp at h

theorem get_device_total_unless_ctor_fails_witness :
    get_device true true true (.error "x") (.error "y")
      = .ok (Device.Cpu, false) ∧
    get_device false false false (.error "x") (.error "y")
      = .ok (Device.Cpu, true) :=
  ⟨(get_device_total_unless_ctor_fails true true true _ _).1 rfl,
   (get_device_total_unless_ctor_fails false false false _ _).2.1 rfl rfl⟩

/-- C2: for every decodable image, `load_image` returns the canonical tensor
of shape (3, image_size, image_size): the data is the raster produced by
Triangle-filter `resize_to_fill` to the target square, reinterpreted from
channel-last (h, w, c) to channel-first (c, h, w), with each byte p mapped to
p * (2/255) + (-1); byte 0 maps to exactly -1 and byte 255 to exactly 1.
The length hypothesis is the `image` crate contract that `resize_to_fill`
returns exactly the requested dimensions (3 bytes per RGB pixel). -/
theorem load_image_canonical {Img : Type} (ops : ImageOps Img) (path : String)
    (S : Nat) (img : Img)
    (hdec : ops.openDecode path = .ok img)
    (hlen : (ops.toRgb8Raw (ops.resizeToFill img S S FilterType.Triangle)).length
      = S * S * 3) :
    ∃ t, load_image ops path S = .ok t ∧
      t.shape = [3, S, S] ∧
      (∀ c h w, t.entry [c, h, w] =
        ((ops.toRgb8Raw (ops.resizeToFill img S S FilterType.Triangle)).getD
          ((h * S + w) * 3 + c) 0 : ℚ) * (2 / 255) + (-1)) ∧
      (∀ c h w,
        (ops.toRgb8Raw (ops.resizeToFill img S S FilterType.Triangle)).getD
          ((h * S + w) * 3 + c) 0 = 0 → t.entry [c, h, w] = -1) ∧
      (∀ c h w,
        (ops.toRgb8Raw (ops.resizeToFill img S S FilterType.Triangle)).getD
          ((h * S + w) * 3 + c) 0 = 255 → t.entry [c, h, w] = 1) := by
  have h1 : load_image ops path S = normalizeDecoded ops img S := by
    unfold load_image
    rw [hdec]
  have h2 : fromVec (ops.toRgb8Raw (ops.resizeToFill img S S FilterType.Triangle)) S S 3
      = .ok ⟨[S, S, 3], fun idx =>
        match idx with
        | [i, j, k] =>
          (((ops.toRgb8Raw (ops.resizeToFill img S S FilterType.Triangle)).getD
            ((i * S + j) * 3 + k) 0 : Nat) : ℚ)
        | _ => 0⟩ := by
    unfold fromVec
    rw [if_pos hlen]
  refine ⟨affine (permute201 ⟨[S, S, 3], fun idx =>
      match idx with
      | [i, j, k] =>
        (((ops.toRgb8Raw (ops.resizeToFill img S S FilterType.Triangle)).getD
          ((i * S + j) * 3 + k) 0 : Nat) : ℚ)
      | _ => 0⟩) (2 / 255) (-1), ?_, rfl, ?_, ?_, ?_⟩
  · rw [h1]
    simp only [normalizeDecoded]
    rw [h2]
    rfl
  · intro c h w
    rfl
  · intro c h w hb
    show (((ops.toRgb8Raw (ops.resizeToFill img S S FilterType.Triangle)).getD
      ((h * S + w) * 3 + c) 0 : Nat) : ℚ) * (2 / 255) + (-1) = -1
    rw [hb]
    norm_num
  · intro c h w hb
    show (((ops.toRgb8Raw (ops.resizeToFill img S S FilterType.Triangle)).getD
      ((h * S + w) * 3 + c) 0 : Nat) : ℚ) * (2 / 255) + (-1) = 1
    rw [hb]
    norm_num

theorem load_image_canonical_witness :
    ∃ t, load_image sampleOps "img.png" 1 = .ok t ∧
      t.shape = [3, 1, 1] ∧
      (∀ c h w, t.entry [c, h, w] =
        ((sampleOps.toRgb8Raw (sampleOps.resizeToFill () 1 1 FilterType.Triangle)).getD
          ((h * 1 + w) * 3 + c) 0 : ℚ) * (2 / 255) + (-1)) ∧
      (∀ c h w,
        (sampleOps.toRgb8Raw (sampleOps.resizeToFill () 1 1 FilterType.Triangle)).getD
          ((h * 1 + w) * 3 + c) 0 = 0 → t.entry [c, h, w] = -1) ∧
      (∀ c h w,
        (sampleOps.toRgb8Raw (sampleOps.resizeToFill () 1 1 FilterType.Triangle)).getD
          ((h * 1 + w) * 3 + c) 0 = 255 → t.entry [c, h, w] = 1) :=
  load_image_canonical sampleOps "img.png" 1 () rfl rfl

/-- C1: for every supported image, the three image-input pathways (filesystem
path, already-decoded image, raw encoded bytes) applied to the same
underlying image bytes produce the same canonical tensor and embedding: the
three results are equal, so the pairwise L1 difference is 0 < 1e-5 and, when
the embedding has non-zero norm, the pairwise cosine similarity is
1 > 0.999.  The hypotheses say the path and the byte buffer decode to the
same decoded image, which is what "the same underlying image bytes" means
for a deterministic decoder. -/
theorem image_input_paths_consistent {Img : Type} (e : ClipEmbedder)
    (ops : ImageOps Img) (path : String) (bytes : List Nat) (img : Img)
    (hpath : ops.openDecode path = .ok img)
    (hbytes : ops.decodeBytes bytes = .ok img) :
    e.get_image_embedding ops path = e.get_image_embedding_from_dynamic ops img ∧
    e.get_image_embedding_from_bytes ops bytes
      = e.get_image_embedding_from_dynamic ops img ∧
    ∀ v, e.get_image_embedding ops path = .ok v →
      l1Diff v v = 0 ∧ l1Diff v v < 1 / 100000 ∧
      (sumSq v ≠ 0 →
        cosine_similarity v v = 1 ∧ (0.999 : ℝ) < cosine_similarity v v) := by
  have h1 : e.get_image_embedding ops path
      = e.get_image_embedding_from_dynamic ops img := by
    unfold ClipEmbedder.get_image_embedding
      ClipEmbedder.get_image_embedding_from_dynamic load_image
    rw [hpath]
  have h2 : e.get_image_embedding_from_bytes ops bytes
      = e.get_image_embedding_from_dynamic ops img := by
    unfold ClipEmbedder.get_image_embedding_from_bytes
    rw [hbytes]
  refine ⟨h1, h2, fun v _ => ⟨l1Diff_self v, ?_, fun hs => ?_⟩⟩
  · rw [l1Diff_self]
    norm_num
  · rw [cosine_similarity_self v hs]
    norm_num

theorem image_input_paths_consistent_witness :
    sampleEmbedder.get_image_embedding sampleOps "img.png"
      = sampleEmbedder.get_image_embedding_from_dynamic sampleOps () ∧
    sampleEmbedder.get_image_embedding_from_bytes sampleOps [9, 9]
      = sampleEmbedder.get_image_embedding_from_dynamic sampleOps () ∧
    l1Diff [1, 1] [1, 1] = 0 ∧ l1Diff [1, 1] [1, 1] < 1 / 100000 ∧
    cosine_similarity [1, 1] [1, 1] = 1 ∧
    (0.999 : ℝ) < cosine_similarity [1, 1] [1, 1] := by
  have h := image_input_paths_consistent sampleEmbedder sampleOps
    "img.png" [9, 9] () rfl rfl
  have hok : sampleEmbedder.get_image_embedding sampleOps "img.png"
      = .ok [1, 1] := rfl
  have h3 := h.2.2 [1, 1] hok
  have hs := h3.2.2 (by norm_num [sumSq])
  exact ⟨h.1, h.2.1, h3.1, h3.2.1, hs.1, hs.2⟩

theorem squeeze0_shape_cons (u : Tensor) (rest : List Nat)
    (h : u.shape = 1 :: rest) :
    squeeze0 u = ⟨rest, fun idx => u.entry (0 :: idx)⟩ := by
  unfold squeeze0
  rw [h]

theorem toVec1_mk (d : Nat) (f : List Nat → ℚ) :
    toVec1 ⟨[d], f⟩ = .ok ((List.range d).map fun i => f [i]) := rfl

theorem toVec1_squeeze0_length (u : Tensor) (d : Nat) (hu : u.shape = [1, d])
    (v : List ℚ) (hv : toVec1 (squeeze0 u) = .ok v) : v.length = d := by
  rw [squeeze0_shape_cons u [d] hu, toVec1_mk] at hv
  cases hv
  simp

/-- C3: every embedding vector returned by any of the embedding operations of
a given embedder — image from path, from decoded image, from bytes, or
text — has the same length, equal to the configuration's projection
dimension (512 for the reference `vit_base_patch32` configuration).  The two
hypotheses are the model-backend contract that each projection head returns
a single-row batch of width `projection_dim`. -/
theorem embedding_length_invariant {Img : Type} (e : ClipEmbedder)
    (ops : ImageOps Img)
    (himg : ∀ t u, e.model.getImageFeatures t = .ok u →
      u.shape = [1, e.config.projection_dim])
    (htxt : ∀ ids u, e.model.getTextFeatures ids = .ok u →
      u.shape = [1, e.config.projection_dim]) :
    (∀ path v, e.get_image_embedding ops path = .ok v →
      v.length = e.config.projection_dim) ∧
    (∀ img v, e.get_image_embedding_from_dynamic ops img = .ok v →
      v.length = e.config.projection_dim) ∧
    (∀ bytes v, e.get_image_embedding_from_bytes ops bytes = .ok v →
      v.length = e.config.projection_dim) ∧
    (∀ text v, e.get_text_embedding text = .ok v →
      v.length = e.config.projection_dim) ∧
    ClipConfig.vit_base_patch32.projection_dim = 512 := by
  have hdyn : ∀ img v, e.get_image_embedding_from_dynamic ops img = .ok v →
      v.length = e.config.projection_dim := by
    intro img v hv
    unfold ClipEmbedder.get_image_embedding_from_dynamic at hv
    cases hnd : normalizeDecoded ops img e.config.image_size with
    | error err =>
      rw [hnd] at hv
      simp at hv
    | ok t =>
      rw [hnd] at hv
      simp only [] at hv
      cases hf : e.model.getImageFeatures (unsqueeze0 t) with
      | error err =>
        rw [hf] at hv
        simp at hv
      | ok u =>
        rw [hf] at hv
        simp only [] at hv
        exact toVec1_squeeze0_length u _ (himg _ u hf) v hv
  have hpath : ∀ path v, e.get_image_embedding ops path = .ok v →
      v.length = e.config.projection_dim := by
    intro path v hv
    unfold ClipEmbedder.get_image_embedding at hv
    cases hld : load_image ops path e.config.image_size with
    | error err =>
      rw [hld] at hv
      simp at hv
    | ok t =>
      rw [hld] at hv
      simp only [] at hv
      cases hf : e.model.getImageFeatures (unsqueeze0 t) with
      | error err =>
        rw [hf] at hv
        simp at hv
      | ok u =>
        rw [hf] at hv
        simp only [] at hv
        exact toVec1_squeeze0_length u _ (himg _ u hf) v hv
  have hbytes : ∀ bytes v, e.get_image_embedding_from_bytes ops bytes = .ok v →
      v.length = e.config.projection_dim := by
    intro bytes v hv
    unfold ClipEmbedder.get_image_embedding_from_bytes at hv
    cases hdb : ops.decodeBytes bytes with
    | error err =>
      rw [hdb] at hv
      simp at hv
    | ok img =>
      rw [hdb] at hv
      simp only [] at hv
      exact hdyn img v hv
  have htext : ∀ text v, e.get_text_embedding text = .ok v →
      v.length = e.config.projection_dim := by
    intro text v hv
    unfold ClipEmbedder.get_text_embedding at hv
    cases henc : e.tokenizer.encode text true with
    | error err =>
      rw [henc] at hv
      simp at hv
    | ok ids =>
      rw [henc] at hv
      simp only [] at hv
      cases hf : e.model.getTextFeatures [ids] with
      | error err =>
        rw [hf] at hv
        simp at hv
      | ok u =>
        rw [hf] at hv
        simp only [] at hv
        exact toVec1_squeeze0_length u _ (htxt _ u hf) v hv
  exact ⟨hpath, hdyn, hbytes, htext, rfl⟩

theorem embedding_length_invariant_witness :
    ([(1 : ℚ), 1]).length = sampleEmbedder.config.projection_dim := by
  have himg : ∀ t u, sampleEmbedder.model.getImageFeatures t = .ok u →
      u.shape = [1, sampleEmbedder.config.projection_dim] := by
    intro t u h
    cases h
    rfl
  have htxt : ∀ ids u, sampleEmbedder.model.getTextFeatures ids = .ok u →
      u.shape = [1, sampleEmbedder.config.projection_dim] := by
    intro ids u h
    cases h
    rfl
  exact (embedding_length_invariant sampleEmbedder sampleOps himg htxt).1
    "img.png" [1, 1] rfl

/-- C7: the text path delegates to the external tokenizer with
add-special-boundary-tokens enabled (`encode(text, true)`); a tokenizer
rejection is surfaced directly to the caller, unmodified and with no retry,
and on success the id sequence is wrapped as the single-row batch
`[tokens]` before model consumption. -/
theorem get_text_embedding_tokenizer_contract (e : ClipEmbedder)
    (text : String) :
    (∀ m, e.tokenizer.encode text true = .error m →
      e.get_text_embedding text = .error m) ∧
    (∀ ids, e.tokenizer.encode text true = .ok ids →
      e.get_text_embedding text =
        match e.model.getTextFeatures [ids] with
        | .error err => .error err
        | .ok features => toVec1 (squeeze0 features)) := by
  constructor
  · intro m hm
    unfold ClipEmbedder.get_text_embedding
    rw [hm]
  · intro ids hids
    unfold ClipEmbedder.get_text_embedding
    rw [hids]

theorem get_text_embedding_tokenizer_contract_witness :
    failingTokEmbedder.get_text_embedding "any text" = .error "encoding failure" ∧
    sampleEmbedder.get_text_embedding "hi" =
      match sampleEmbedder.model.getTextFeatures [[5, 6]] with
      | .error err => .error err
      | .ok features => toVec1 (squeeze0 features) :=
  ⟨(get_text_embedding_tokenizer_contract failingTokEmbedder "any text").1
      "encoding failure" rfl,
   (get_text_embedding_tokenizer_contract sampleEmbedder "hi").2 [5, 6] rfl⟩

/-- C9: the token-id sequence passed to the model is exactly the external
tokenizer's encode output, special tokens included: whatever id sequence
`encode(text, true)` returns is forwarded as the single-row batch `[ids]`
with no truncation, padding, or maximum-length enforcement, even when it is
longer than the model's supported context. -/
theorem token_ids_forwarded_unmodified (e : ClipEmbedder) (text : String)
    (ids : List Nat) (h : e.tokenizer.encode text true = .ok ids) :
    e.get_text_embedding text =
      match e.model.getTextFeatures [ids] with
      | .error err => .error err
      | .ok features => toVec1 (squeeze0 features) := by
  unfold ClipEmbedder.get_text_embedding
  rw [h]

theorem token_ids_forwarded_unmodified_witness :
    longIdsEmbedder.get_text_embedding "overlong input" = .ok [42] := by
  rw [token_ids_forwarded_unmodified longIdsEmbedder "overlong input"
    (List.replicate 100 7) rfl]
  rfl

/-- C8: embedding is deterministic and no embedding call mutates the
embedder: every operation is a pure function of the embedder's immutable
components (model weights, tokenizer, configuration, device) and the input,
so two embedders agreeing on those components — in particular the same
embedder across two successive calls — produce identical (bit-for-bit in
the value model) output for identical input.  The Rust methods take `&self`,
so no call can mutate the `ClipEmbedder` state. -/
theorem embedding_deterministic {Img : Type} (e1 e2 : ClipEmbedder)
    (ops : ImageOps Img)
    (hm : e1.model = e2.model) (ht : e1.tokenizer = e2.tokenizer)
    (hc : e1.config = e2.config) (hd : e1.device = e2.device) :
    (∀ path, e1.get_image_embedding ops path
      = e2.get_image_embedding ops path) ∧
    (∀ img, e1.get_image_embedding_from_dynamic ops img
      = e2.get_image_embedding_from_dynamic ops img) ∧
    (∀ bytes, e1.get_image_embedding_from_bytes ops bytes
      = e2.get_image_embedding_from_bytes ops bytes) ∧
    (∀ text, e1.get_text_embedding text = e2.get_text_embedding text) := by
  obtain ⟨m1, t1, c1, d1⟩ := e1
  obtain ⟨m2, t2, c2, d2⟩ := e2
  cases hm
  cases ht
  cases hc
  cases hd
  exact ⟨fun _ => rfl, fun _ => rfl, fun _ => rfl, fun _ => rfl⟩

theorem embedding_deterministic_witness :
    sampleEmbedder.get_text_embedding "the same input"
      = sampleEmbedder.get_text_embedding "the same input" :=
  (embedding_deterministic sampleEmbedder sampleEmbedder sampleOps
    rfl rfl rfl rfl).2.2.2 "the same input"

/-- C10: when both `model_path` and `tokenizer_path` are supplied as explicit
local paths, construction requests nothing from the remote hub resolver (the
recorded hub-artifact log is empty and the result is independent of the hub
function) and uses exactly the supplied paths: the weight loader receives
`model_path` and the tokenizer file loader receives `tokenizer_path`.  In
general a hub artifact is requested only for an argument that is absent. -/
theorem clip_new_local_paths {Vb : Type} (mp tp : Option String) (p t : String)
    (cpu a b : Bool) (nc nm : Except String Device)
    (hub hub2 : String → Except String String)
    (from_file : String → Except String Tokenizer)
    (lw : String → Except String Vb) (mk : Vb → Except String ClipModel) :
    (∀ art, art ∈ (ClipEmbedder.new mp tp cpu hub from_file a b nc nm lw mk).2 →
      (art = "model.safetensors" ∧ mp = none) ∨
      (art = "tokenizer.json" ∧ tp = none)) ∧
    ((ClipEmbedder.new (some p) (some t) cpu hub from_file a b nc nm lw mk).2
      = []) ∧
    (ClipEmbedder.new (some p) (some t) cpu hub from_file a b nc nm lw mk
      = ClipEmbedder.new (some p) (some t) cpu hub2 from_file a b nc nm lw mk) ∧
    ((ClipEmbedder.new (some p) (some t) cpu hub from_file a b nc nm lw mk).1
      = match get_device cpu a b nc nm with
        | .error e => .error e
        | .ok (device, _) =>
          match from_file t with
          | .error e => .error e
          | .ok tokenizer =>
            match (lw p).bind mk with
            | .error e => .error e
            | .ok model =>
              .ok { model := model, tokenizer := tokenizer,
                    config := ClipConfig.vit_base_patch32,
                    device := device }) := by
  refine ⟨?_, ?_, rfl, ?_⟩
  · intro art hart
    unfold ClipEmbedder.new get_tokenizer at hart
    rcases mp with _ | pm <;> rcases tp with _ | pt <;> simp at hart <;>
      (repeat' split at hart) <;> simp_all
  · cases hgd : get_device cpu a b nc nm with
    | error e =>
      unfold ClipEmbedder.new
      rw [hgd]
    | ok dn =>
      obtain ⟨device, notice⟩ := dn
      unfold ClipEmbedder.new get_tokenizer
      rw [hgd]
      cases hff : from_file t with
      | error e => simp [hff]
      | ok tokz =>
        cases hlm : (lw p).bind mk with
        | error e => simp [hff, hlm]
        | ok model => simp [hff, hlm]
  · cases hgd : get_device cpu a b nc nm with
    | error e =>
      unfold ClipEmbedder.new
      rw [hgd]
    | ok dn =>
      obtain ⟨device, notice⟩ := dn
      unfold ClipEmbedder.new get_tokenizer
      rw [hgd]
      cases hff : from_file t with
      | error e => simp [hff]
      | ok tokz =>
        cases hlm : (lw p).bind mk with
        | error e => simp [hff, hlm]
        | ok model => simp [hff, hlm]

theorem clip_new_local_paths_witness :
    (ClipEmbedder.new (some "model.st") (some "tok.json") true sampleHub
      sampleFromFile false false (.ok Device.Cpu) (.ok Device.Cpu)
      sampleLoadWeights sampleMkModel).2 = [] ∧
    (("model.safetensors" = "model.safetensors" ∧
        (none : Option String) = none) ∨
     ("model.safetensors" = "tokenizer.json" ∧
        (some "tok.json" : Option String) = none)) := by
  have h1 := @clip_new_local_paths Unit (some "model.st")
    (some "tok.json") "model.st" "tok.json" true false false
    (.ok Device.Cpu) (.ok Device.Cpu) sampleHub sampleHub sampleFromFile
    sampleLoadWeights sampleMkModel
  have h2 := @clip_new_local_paths Unit none (some "tok.json")
    "p" "t" true false false (.ok Device.Cpu) (.ok Device.Cpu) sampleHub
    sampleHub sampleFromFile sampleLoadWeights sampleMkModel
  exact ⟨h1.2.1, h2.1 "model.safetensors" (List.mem_singleton.mpr rfl)⟩

end Clipper
